import Mathlib

/-!
Verification of the repo-miner data-transformation functions.

The embedding translates `src/repo_miner.py` (the `fetch_commits` function)
and, where the repository ships only tests for a function, a model built
from the specification (`fetch_issues`, `merge_and_summarize`).
-/

/-- Model of a raw commit's nested author sub-object, as exposed by the
remote client (`commit.commit.author` with `name`, `email`, `date`); the
`dateIso` field stands for `date.isoformat()`. -/
structure RawAuthor where
  name : String
  email : String
  dateIso : String
deriving Repr, DecidableEq

/-- Model of a raw commit object from the remote client: `sha`, the optional
`commit.author` sub-object, and the optional `commit.message` string (Python
`None` is modelled as `none`). -/
structure RawCommit where
  sha : String
  author : Option RawAuthor
  message : Option String
deriving Repr, DecidableEq

/-- The flat normalized record built per commit in `fetch_commits`
(the dict literal at lines 40-46 of `repo_miner.py`). -/
structure CommitRecord where
  sha : String
  author : String
  email : String
  date : String
  message : String
deriving Repr, DecidableEq

/-- Python truthiness of an optional string: `None` and the empty string are
falsy, every other string is truthy (used by `if not token:` and by
`if commit.commit.message`). -/
def pyTruthyStr : Option String → Bool
  | none => false
  | some s => s ≠ ""

/-- Python `s.split(sep)` on a character separator, working on the character
list: splitting never yields an empty list, and a string without the
separator splits into the one-element list holding the whole string. -/
def pySplit (sep : Char) : List Char → List (List Char)
  | [] => [[]]
  | c :: rest =>
      let r := pySplit sep rest
      if c = sep then [] :: r
      else (c :: r.headD []) :: r.tail

/-- Python `s.split(sep)[0]` as used on the commit message: the first element
of the split, i.e. the substring before the first separator occurrence. -/
def pySplitFirst (sep : Char) (s : String) : String :=
  ((pySplit sep s.toList).headD []).asString

/-- Normalization of one raw commit, translating the record construction in
`fetch_commits`: each of `author`, `email`, `date` falls back to
`"Unknown"` under the test `if commit.commit.author`, and `message` is
`commit.commit.message.split(chr 10)[0]` when the message is truthy,
`"No message"` otherwise. -/
def normalizeCommit (c : RawCommit) : CommitRecord :=
  { sha := c.sha
  , author := match c.author with
      | some a => a.name
      | none => "Unknown"
  , email := match c.author with
      | some a => a.email
      | none => "Unknown"
  , date := match c.author with
      | some a => a.dateIso
      | none => "Unknown"
  , message :=
      if pyTruthyStr c.message then pySplitFirst '\n' (c.message.getD "")
      else "No message" }

/-- The Python loop guard `if max_commits and commit_count >= max_commits`:
`max_commits` of `None` or `0` is falsy, so the cap test is skipped; a
nonzero cap breaks once `commit_count >= max_commits`. -/
def pyCapReached : Option Int → Nat → Bool
  | none, _ => false
  | some m, count => m != 0 && decide (m ≤ (count : Int))

/-- The `for commit in repo.get_commits():` loop of `fetch_commits`,
threading the `commit_count` counter and accumulating normalized records in
source order. -/
def collectCommits (maxCommits : Option Int) : List RawCommit → Nat → List CommitRecord
  | [], _ => []
  | c :: rest, count =>
      if pyCapReached maxCommits count then []
      else normalizeCommit c :: collectCommits maxCommits rest (count + 1)

/-- Model of a pandas DataFrame as its column labels plus its rows (each row
listed in column order). -/
structure DataFrame where
  columns : List String
  rows : List (List String)
deriving Repr, DecidableEq

/-- The column set documented for commit records. -/
def commitColumns : List String := ["sha", "author", "email", "date", "message"]

/-- One DataFrame row for a commit record, in column order. -/
def commitRow (r : CommitRecord) : List String :=
  [r.sha, r.author, r.email, r.date, r.message]

/-- Model of `pd.DataFrame(commits_data)`: pandas infers the columns from the
record dicts' keys, so a nonempty record list yields the five commit
columns while an empty list yields a DataFrame with no columns at all. -/
def pdDataFrameOfCommits (records : List CommitRecord) : DataFrame :=
  { columns := if records.isEmpty then [] else commitColumns
  , rows := records.map commitRow }

/-- The errors `fetch_commits` can raise itself: the `ValueError` for a
missing `GITHUB_TOKEN` (the specification calls this failure
`ConfigurationError`). -/
inductive FetchError where
  | valueError (msg : String)
deriving Repr, DecidableEq

/-- Result of a `fetch_commits` call together with the number of remote-client
interactions that were performed before returning (0 on the missing-token
error path; the successful path performs at least the `get_repo` lookup,
abstracted here as a single interaction). -/
structure FetchOutcome where
  result : Except FetchError DataFrame
  networkCalls : Nat

/-- Embedding of `fetch_commits(repo_name, max_commits)`. The environment
variable `GITHUB_TOKEN` is passed explicitly as `env`, and the commit
sequence the remote source would yield is passed as `source`. The token
guard `if not token:` raises before the client is built; otherwise the loop
consumes `source` and the records are packed into a DataFrame. -/
def fetchCommits (env : Option String) (source : List RawCommit)
    (maxCommits : Option Int) : FetchOutcome :=
  if pyTruthyStr env then
    { result := .ok (pdDataFrameOfCommits (collectCommits maxCommits source 0))
    , networkCalls := 1 }
  else
    { result := .error (.valueError "GITHUB_TOKEN environment variable not set")
    , networkCalls := 0 }

/-- C6: when the authentication token is absent from the environment,
`fetch_commits` fails with the missing-token error (the spec's
`ConfigurationError`) and performs no remote-client interaction. -/
theorem fetchCommits_missing_token (source : List RawCommit) (maxCommits : Option Int) :
    (fetchCommits none source maxCommits).result
        = .error (.valueError "GITHUB_TOKEN environment variable not set")
      ∧ (fetchCommits none source maxCommits).networkCalls = 0 := by
  constructor <;> rfl

/-- C10: an empty-string `GITHUB_TOKEN` is falsy under `if not token:`, so
`fetch_commits` behaves exactly as when the variable is absent: the same
missing-token error, and no remote-client interaction. -/
theorem fetchCommits_empty_token (source : List RawCommit) (maxCommits : Option Int) :
    fetchCommits (some "") source maxCommits = fetchCommits none source maxCommits
      ∧ (fetchCommits (some "") source maxCommits).result
          = .error (.valueError "GITHUB_TOKEN environment variable not set")
      ∧ (fetchCommits (some "") source maxCommits).networkCalls = 0 := by
  refine ⟨?_, rfl, rfl⟩
  simp [fetchCommits, pyTruthyStr]

theorem collectCommits_no_cap (maxCommits : Option Int)
    (h : maxCommits = none ∨ maxCommits = some 0) :
    ∀ (src : List RawCommit) (count : Nat),
      collectCommits maxCommits src count = src.map normalizeCommit := by
  intro src
  induction src with
  | nil => intro count; rfl
  | cons c rest ih =>
      intro count
      rcases h with h | h <;> subst h <;>
        simp [collectCommits, pyCapReached, ih]

theorem collectCommits_length_pos (m : Int) (hm : 0 < m) :
    ∀ (src : List RawCommit) (count : Nat),
      (collectCommits (some m) src count).length = min (m.toNat - count) src.length := by
  intro src
  induction src with
  | nil => intro count; simp [collectCommits]
  | cons c rest ih =>
      intro count
      by_cases h : m ≤ (count : Int)
      · have hcap : pyCapReached (some m) count = true := by
          simp [pyCapReached, h]
          omega
        have h0 : m.toNat - count = 0 := by omega
        simp [collectCommits, hcap, h0]
      · have hcap : pyCapReached (some m) count = false := by
          simp [pyCapReached]
          omega
        have hlt : count < m.toNat := by omega
        simp [collectCommits, hcap, ih (count + 1)]
        omega

/-- C1: with a positive `max_commits` supplied, `fetch_commits` returns
exactly `min max_commits (source length)` rows, in particular at most
`max_commits`; with `max_commits` unset it returns one row per available
source commit. -/
theorem fetchCommits_length_cap (tok : String) (src : List RawCommit) (m : Int)
    (htok : tok ≠ "") (hm : 0 < m) :
    ∃ df dfAll,
      (fetchCommits (some tok) src (some m)).result = .ok df
      ∧ df.rows.length = min m.toNat src.length
      ∧ (df.rows.length : Int) ≤ m
      ∧ (fetchCommits (some tok) src none).result = .ok dfAll
      ∧ dfAll.rows.length = src.length := by
  have henv : pyTruthyStr (some tok) = true := by simp [pyTruthyStr, htok]
  refine ⟨pdDataFrameOfCommits (collectCommits (some m) src 0),
          pdDataFrameOfCommits (collectCommits none src 0), ?_, ?_, ?_, ?_, ?_⟩
  · simp [fetchCommits, henv]
  · simp [pdDataFrameOfCommits, collectCommits_length_pos m hm src 0]
  · simp [pdDataFrameOfCommits, collectCommits_length_pos m hm src 0]
    omega
  · simp [fetchCommits, henv]
  · simp [pdDataFrameOfCommits, collectCommits_no_cap none (Or.inl rfl) src 0]

/-- Witness for C1 at a concrete three-commit source with a cap of 2. -/
theorem fetchCommits_length_cap_witness :
    ∃ df dfAll,
      (fetchCommits (some "t")
          [⟨"s1", none, none⟩, ⟨"s2", none, none⟩, ⟨"s3", none, none⟩]
          (some 2)).result = .ok df
      ∧ df.rows.length = min (Int.toNat 2) 3
      ∧ (df.rows.length : Int) ≤ 2
      ∧ (fetchCommits (some "t")
          [⟨"s1", none, none⟩, ⟨"s2", none, none⟩, ⟨"s3", none, none⟩]
          none).result = .ok dfAll
      ∧ dfAll.rows.length = 3 :=
  fetchCommits_length_cap "t" _ 2 (by decide) (by decide)

/-- C9: a `max_commits` of 0 is falsy in the loop guard, so the cap is
ignored: the call behaves exactly like an uncapped call and returns the
whole source sequence rather than an empty result. -/
theorem fetchCommits_zero_cap (tok : String) (src : List RawCommit) (htok : tok ≠ "") :
    fetchCommits (some tok) src (some 0) = fetchCommits (some tok) src none
      ∧ ∃ df, (fetchCommits (some tok) src (some 0)).result = .ok df
          ∧ df.rows.length = src.length := by
  have henv : pyTruthyStr (some tok) = true := by simp [pyTruthyStr, htok]
  have h0 := collectCommits_no_cap (some 0) (Or.inr rfl) src 0
  have hn := collectCommits_no_cap none (Or.inl rfl) src 0
  refine ⟨by simp [fetchCommits, henv, h0, hn],
          pdDataFrameOfCommits (collectCommits (some 0) src 0),
          by simp [fetchCommits, henv], ?_⟩
  simp [pdDataFrameOfCommits, h0]

/-- Witness for C9 at a concrete two-commit source. -/
theorem fetchCommits_zero_cap_witness :
    fetchCommits (some "t") [⟨"s1", none, none⟩, ⟨"s2", none, none⟩] (some 0)
        = fetchCommits (some "t") [⟨"s1", none, none⟩, ⟨"s2", none, none⟩] none
      ∧ ∃ df,
        (fetchCommits (some "t") [⟨"s1", none, none⟩, ⟨"s2", none, none⟩] (some 0)).result
            = .ok df
          ∧ df.rows.length = 2 :=
  fetchCommits_zero_cap "t" _ (by decide)

/-- C8 counterexample: on a zero-commit source `fetch_commits` succeeds with
zero rows, but the DataFrame built by `pd.DataFrame([])` has an empty
column list, not the five documented commit columns. -/
theorem fetchCommits_empty_source_counterexample :
    (fetchCommits (some "t") [] none).result = .ok ⟨[], []⟩
      ∧ ([] : List String) ≠ commitColumns :=
  ⟨rfl, by decide⟩

/-- C8 (amended): on a zero-commit source `fetch_commits` returns a valid
non-error result with zero rows, but its column set is empty; the defined
column set is carried exactly by results with at least one row. -/
theorem fetchCommits_empty_source (tok : String) (maxCommits : Option Int)
    (htok : tok ≠ "") :
    (fetchCommits (some tok) [] maxCommits).result = .ok ⟨[], []⟩
      ∧ ∀ (src : List RawCommit) (df : DataFrame),
          (fetchCommits (some tok) src maxCommits).result = .ok df →
          df.rows ≠ [] → df.columns = commitColumns := by
  have henv : pyTruthyStr (some tok) = true := by simp [pyTruthyStr, htok]
  constructor
  · cases maxCommits <;> simp [fetchCommits, henv, collectCommits, pdDataFrameOfCommits]
  · intro src df hok hrows
    have hdf : df = pdDataFrameOfCommits (collectCommits maxCommits src 0) := by
      simpa [fetchCommits, henv] using hok.symm
    subst hdf
    simp only [pdDataFrameOfCommits] at hrows ⊢
    have : ¬ (collectCommits maxCommits src 0).isEmpty := by
      intro hemp
      exact hrows (by simp [List.isEmpty_iff.mp hemp])
    simp [this]

/-- Witness for C8 (amended) at a concrete token, empty source, and a
one-commit source for the nonempty-column part. -/
theorem fetchCommits_empty_source_witness :
    (fetchCommits (some "t") [] none).result = .ok ⟨[], []⟩
      ∧ ∀ (df : DataFrame),
          (fetchCommits (some "t") [⟨"s1", none, none⟩] none).result = .ok df →
          df.rows ≠ [] → df.columns = commitColumns :=
  ⟨(fetchCommits_empty_source "t" none (by decide)).1,
   fun df => (fetchCommits_empty_source "t" none (by decide)).2 [⟨"s1", none, none⟩] df⟩

/-- C4: for a raw commit whose optional author sub-object is absent, the
normalized record has the string "Unknown" in all three of `author`,
`email` and `date`; the three fields are governed by the one presence test
`if commit.commit.author`. -/
theorem normalizeCommit_missing_author (c : RawCommit) (h : c.author = none) :
    (normalizeCommit c).author = "Unknown"
      ∧ (normalizeCommit c).email = "Unknown"
      ∧ (normalizeCommit c).date = "Unknown" := by
  simp [normalizeCommit, h]

/-- Witness for C4 at a concrete author-less commit. -/
theorem normalizeCommit_missing_author_witness :
    (normalizeCommit ⟨"s1", none, some "msg"⟩).author = "Unknown"
      ∧ (normalizeCommit ⟨"s1", none, some "msg"⟩).email = "Unknown"
      ∧ (normalizeCommit ⟨"s1", none, some "msg"⟩).date = "Unknown" :=
  normalizeCommit_missing_author ⟨"s1", none, some "msg"⟩ rfl

theorem pySplit_headD (sep : Char) :
    ∀ l : List Char, (pySplit sep l).headD [] = l.takeWhile (fun c => c != sep)
  | [] => rfl
  | c :: rest => by
      have ih := pySplit_headD sep rest
      simp only [List.headD_eq_head?] at ih
      by_cases h : c = sep <;>
        simp [pySplit, List.takeWhile_cons, h, ih]

/-- C5: the normalized `message` is index 0 of the newline split of the raw
message, i.e. the substring of the raw message before its first newline; an
absent or empty raw message yields "No message". -/
theorem normalizeCommit_message (c : RawCommit) :
    (∀ s, c.message = some s → s ≠ "" →
        (normalizeCommit c).message = pySplitFirst '\n' s
          ∧ (normalizeCommit c).message
              = (s.toList.takeWhile (fun ch => ch != '\n')).asString)
      ∧ ((c.message = none ∨ c.message = some "") →
        (normalizeCommit c).message = "No message") := by
  constructor
  · intro s hs hne
    have key := pySplit_headD '\n' s.toList
    simp only [List.headD_eq_head?, String.toList] at key
    constructor <;>
      simp [normalizeCommit, pyTruthyStr, hs, hne, pySplitFirst, key]
  · rintro (h | h) <;> simp [normalizeCommit, pyTruthyStr, h]

/-- Witness for C5: the multi-line message keeps only its first line, and an
absent message yields the fallback. -/
theorem normalizeCommit_message_witness :
    (normalizeCommit ⟨"s1", none, some "Initial commit\nDetails"⟩).message
        = "Initial commit"
      ∧ (normalizeCommit ⟨"s1", none, none⟩).message = "No message" := by
  constructor
  · have h := ((normalizeCommit_message ⟨"s1", none, some "Initial commit\nDetails"⟩).1
      "Initial commit\nDetails" rfl (by decide)).1
    rw [h]
    decide
  · exact (normalizeCommit_message ⟨"s1", none, none⟩).2 (Or.inl rfl)

/-- Modelled from the spec: the raw issue object yielded by the remote
source (§6), for the `fetch_issues` implementation that is absent from
`src/` (only its tests exist). Timestamps are modelled as integer epoch
seconds standing for the source datetimes, and `pullRequest` models the
presence of the attached pull-request reference on the raw item. -/
structure RawIssue where
  id : Int
  number : Int
  title : String
  userLogin : Option String
  state : String
  createdAt : Int
  closedAt : Option Int
  comments : Nat
  pullRequest : Bool
deriving Repr, DecidableEq

/-- Modelled from the spec: the normalized IssueRecord of §3. The
`created_at` and `closed_at` fields hold the source timestamps (their
ISO-8601 serialization is an injective rendering of these values and is
orthogonal to the claims), and `open_duration_days` is the whole-day count
between creation and closure, present only when the issue is closed. -/
structure IssueRecord where
  id : Int
  number : Int
  title : String
  user : Option String
  state : String
  created_at : Int
  closed_at : Option Int
  comments : Nat
  open_duration_days : Option Int
deriving Repr, DecidableEq

/-- Modelled from the spec: normalization of one raw issue (§4.2, absent
from `src/`): fields are copied, and `open_duration_days` is the
timedelta-days of `closed_at - created_at` (floor of the second difference
over 86400) when `closed_at` is present, `none` otherwise — never computed
against a current time, which the function does not receive at all. -/
def normalizeIssue (i : RawIssue) : IssueRecord :=
  { id := i.id
  , number := i.number
  , title := i.title
  , user := i.userLogin
  , state := i.state
  , created_at := i.createdAt
  , closed_at := i.closedAt
  , comments := i.comments
  , open_duration_days := i.closedAt.map (fun t => (t - i.createdAt).fdiv 86400) }

/-- Modelled from the spec: the state filter the remote source applies to
its issue listing — "all" matches every issue, any other value must equal
the issue's own state. -/
def stateMatches (st : String) (i : RawIssue) : Bool :=
  st == "all" || i.state == st

/-- Modelled from the spec: `fetch_issues(repo, state)` (§4.2, absent from
`src/`): the remote source yields the issues matching `state`, every raw
item carrying a pull-request marker is removed unconditionally before any
other processing, and the rest are normalized in order. -/
def fetch_issues (source : List RawIssue) (st : String) : List IssueRecord :=
  ((source.filter (stateMatches st)).filter (fun i => !i.pullRequest)).map normalizeIssue

/-- C2: every IssueRecord returned by `fetch_issues` is derived from a
source item that does not carry the pull-request marker, for every `state`
argument; hence no record is ever derived from a pull-request-flagged raw
item. -/
theorem fetch_issues_excludes_prs (source : List RawIssue) (st : String)
    (r : IssueRecord) (hr : r ∈ fetch_issues source st) :
    ∃ raw ∈ source, raw.pullRequest = false ∧ r = normalizeIssue raw := by
  simp only [fetch_issues, List.mem_map] at hr
  obtain ⟨raw, hmem, hmap⟩ := hr
  have h1 := List.mem_filter.mp hmem
  have h2 := List.mem_filter.mp h1.1
  exact ⟨raw, h2.1, by simpa using h1.2, hmap.symm⟩

/-- Witness for C2 at a concrete two-item source holding one genuine issue
and one pull-request-flagged item, with state "all". -/
theorem fetch_issues_excludes_prs_witness :
    ∃ raw ∈ [(⟨1, 101, "Real issue", some "alice", "open", 0, none, 2, false⟩ : RawIssue),
             ⟨2, 102, "Pull request disguised", some "bob", "open", 0, none, 3, true⟩],
      raw.pullRequest = false
        ∧ normalizeIssue ⟨1, 101, "Real issue", some "alice", "open", 0, none, 2, false⟩
            = normalizeIssue raw :=
  fetch_issues_excludes_prs _ "all" _ (by decide)

/-- C3: for an issue with `closed_at` set and not earlier than `created_at`,
`open_duration_days` is the elapsed whole-day count truncated toward zero;
for an issue with `closed_at` absent, the field is absent. -/
theorem fetch_issues_open_duration_days (i : RawIssue) :
    (∀ t, i.closedAt = some t → i.createdAt ≤ t →
        (normalizeIssue i).open_duration_days = some ((t - i.createdAt).tdiv 86400))
      ∧ (i.closedAt = none → (normalizeIssue i).open_duration_days = none) := by
  constructor
  · intro t ht hle
    have heq : (t - i.createdAt).fdiv 86400 = (t - i.createdAt).tdiv 86400 :=
      Int.fdiv_eq_tdiv (by omega) (by omega)
    simp [normalizeIssue, ht, heq]
  · intro h
    simp [normalizeIssue, h]

/-- Witness for C3: an issue created at 2025-01-01T12:00:00 and closed
5 days 3 hours later (the spec's example, as epoch seconds) yields 5 whole
days, and an open issue yields no duration. -/
theorem fetch_issues_open_duration_days_witness :
    (normalizeIssue ⟨1, 301, "Duration test", some "dana", "closed",
        1735732800, some 1736175600, 1, false⟩).open_duration_days = some 5
      ∧ (normalizeIssue ⟨1, 101, "Open", some "alice", "open",
          1735732800, none, 0, false⟩).open_duration_days = none := by
  constructor
  · have h := (fetch_issues_open_duration_days
      ⟨1, 301, "Duration test", some "dana", "closed",
        1735732800, some 1736175600, 1, false⟩).1 1736175600 rfl (by decide)
    rw [h]
    decide
  · exact (fetch_issues_open_duration_days
      ⟨1, 101, "Open", some "alice", "open", 1735732800, none, 0, false⟩).2 rfl

/-- Modelled from the spec: the number of issues in state "closed" among the
normalized issue records handed to the reporter. -/
def closedCount (issues : List IssueRecord) : Nat :=
  (issues.filter (fun i => i.state == "closed")).length

/-- Round-half-up division of `num` by `den` on naturals:
`(2 * num + den) / (2 * den)` is the nearest integer to `num / den`, halves
rounded up. -/
def roundHalfUp (num den : Nat) : Nat :=
  (2 * num + den) / (2 * den)

/-- Modelled from the spec: the close-rate line emitted by
`merge_and_summarize` (§4.3, absent from `src/`; only its test exists). Per
the repository's test, 2 closed of 3 issues must print exactly
"Issue Close Rate: 67.0%", so the emitted figure is the percentage rounded
half-up to the nearest whole percent and rendered with one trailing decimal
digit; zero issues yield the "0.0%" placeholder with no division. -/
def closeRateLine (issues : List IssueRecord) : String :=
  if issues.length = 0 then "Issue Close Rate: 0.0%"
  else "Issue Close Rate: "
        ++ toString (roundHalfUp (100 * closedCount issues) issues.length) ++ ".0%"

/-- The close-rate figure prescribed by the claim's words — the ratio times
100 rounded to ONE DECIMAL PLACE — in tenths of a percent, together with
its rendering. Stated only to compare the claim's wording against the
behavior the repository's test demands. -/
def claimCloseRateTenths (closed total : Nat) : Nat :=
  roundHalfUp (1000 * closed) total

/-- Rendering of a tenth-of-a-percent close-rate figure as the claim's
"Issue Close Rate: <rate>%" line, one decimal digit. -/
def claimCloseRateLine (closed total : Nat) : String :=
  "Issue Close Rate: " ++ toString (claimCloseRateTenths closed total / 10)
    ++ "." ++ toString (claimCloseRateTenths closed total % 10) ++ "%"

/-- Modelled from the spec: the top-committer lines of §4.3 — authors paired
with their commit counts in order of first appearance, stably sorted by
descending count, the first five rendered as "author: n commits". -/
def authorCounts (commits : List CommitRecord) : List (String × Nat) :=
  commits.foldl (fun acc c =>
    if acc.any (fun p => p.1 == c.author) then
      acc.map (fun p => if p.1 == c.author then (p.1, p.2 + 1) else p)
    else acc ++ [(c.author, 1)]) []

/-- Modelled from the spec: rendering of the top five committers. -/
def topCommitterLines (commits : List CommitRecord) : List String :=
  (((authorCounts commits).insertionSort (fun a b => b.2 ≤ a.2)).take 5).map
    (fun p => p.1 ++ ": " ++ toString p.2 ++ " commits")

/-- Modelled from the spec: the open durations of the closed issues that
carry one, in order. -/
def closedDurations (issues : List IssueRecord) : List Int :=
  issues.foldr (fun i acc =>
    if i.state == "closed" then
      match i.open_duration_days with
      | some d => d :: acc
      | none => acc
    else acc) []

/-- Modelled from the spec: the average-open-duration line of §4.3, with a
placeholder when no closed issue carries a duration. -/
def avgDurationLine (issues : List IssueRecord) : String :=
  let ds := closedDurations issues
  if ds.length = 0 then "Average Open Duration for Closed Issues: N/A"
  else "Average Open Duration for Closed Issues: "
        ++ toString ((ds.foldl (· + ·) 0).fdiv (ds.length : Int)) ++ " days"

/-- Modelled from the spec: `merge_and_summarize(commits, issues)` (§4.3,
absent from `src/`): emits the three report sections in fixed order — the
top-committer block, the close-rate line, the average-duration line. -/
def merge_and_summarize (commits : List CommitRecord) (issues : List IssueRecord) :
    List String :=
  ("Top 5 Committers" :: topCommitterLines commits)
    ++ [closeRateLine issues, avgDurationLine issues]

/-- Concrete issue records mirroring the repository's summarize test: three
issues of which the first and third are closed. -/
def sampleIssues : List IssueRecord :=
  [ ⟨1, 101, "I1", some "u1", "closed", 0, some 43200, 0, some 0⟩
  , ⟨2, 102, "I2", some "u2", "open", 7200, none, 1, none⟩
  , ⟨3, 103, "I3", some "u3", "closed", 86400, some 129600, 2, some 0⟩ ]

theorem roundHalfUp_bounds (n d : Nat) (hd : 0 < d) :
    2 * n ≤ 2 * roundHalfUp n d * d + d ∧ 2 * roundHalfUp n d * d ≤ 2 * n + d := by
  have h2d : 0 < 2 * d := by omega
  have hdm : 2 * ((2 * n + d) / (2 * d)) * d + (2 * n + d) % (2 * d) = 2 * n + d := by
    rw [show 2 * ((2 * n + d) / (2 * d)) * d = 2 * d * ((2 * n + d) / (2 * d)) from by ring]
    exact Nat.div_add_mod (2 * n + d) (2 * d)
  have hlt := Nat.mod_lt (2 * n + d) h2d
  simp only [roundHalfUp]
  constructor <;> omega

/-- C7 counterexample: for 2 closed of 3 issues the emitted line is
"Issue Close Rate: 67.0%" (as the repository's test requires), but the
ratio times 100 rounded to one decimal place is 66.7%, so the claim's
rounding rule contradicts the output it itself asserts at this input. -/
theorem merge_close_rate_counterexample :
    closeRateLine sampleIssues = "Issue Close Rate: 67.0%"
      ∧ claimCloseRateLine (closedCount sampleIssues) sampleIssues.length
          = "Issue Close Rate: 66.7%"
      ∧ ("Issue Close Rate: 66.7%" : String) ≠ "Issue Close Rate: 67.0%" :=
  ⟨by decide, by decide, by decide⟩

/-- C7 (amended): `merge_and_summarize` emits the close-rate line; with at
least one issue the emitted figure is the percentage rounded half-up to the
NEAREST WHOLE PERCENT and rendered with one trailing decimal digit (so 2
closed of 3 gives "67.0%"), the emitted percent p obeying the rounding
bounds 2·(100·closed) ≤ 2·p·total + total and 2·p·total ≤ 2·(100·closed) +
total; with zero issues it emits the "0.0%" placeholder and performs no
division. -/
theorem merge_close_rate (commits : List CommitRecord) (issues : List IssueRecord)
    (h : 0 < issues.length) :
    closeRateLine issues ∈ merge_and_summarize commits issues
      ∧ closeRateLine issues
          = "Issue Close Rate: "
              ++ toString (roundHalfUp (100 * closedCount issues) issues.length) ++ ".0%"
      ∧ 2 * (100 * closedCount issues)
          ≤ 2 * roundHalfUp (100 * closedCount issues) issues.length * issues.length
              + issues.length
      ∧ 2 * roundHalfUp (100 * closedCount issues) issues.length * issues.length
          ≤ 2 * (100 * closedCount issues) + issues.length
      ∧ ∀ issues0 : List IssueRecord, issues0.length = 0 →
          closeRateLine issues0 = "Issue Close Rate: 0.0%" := by
  refine ⟨?_, ?_, ?_, ?_, ?_⟩
  · simp [merge_and_summarize]
  · simp [closeRateLine, Nat.pos_iff_ne_zero.mp h]
  · exact (roundHalfUp_bounds (100 * closedCount issues) issues.length h).1
  · exact (roundHalfUp_bounds (100 * closedCount issues) issues.length h).2
  · intro issues0 h0
    simp [closeRateLine, h0]

/-- Witness for C7 (amended) at the three-issue sample with two closed
issues: the emitted line is exactly "Issue Close Rate: 67.0%". -/
theorem merge_close_rate_witness :
    closeRateLine sampleIssues ∈ merge_and_summarize [] sampleIssues
      ∧ closeRateLine sampleIssues = "Issue Close Rate: 67.0%"
      ∧ closeRateLine [] = "Issue Close Rate: 0.0%" := by
  have h := merge_close_rate [] sampleIssues (by decide)
  exact ⟨h.1, by rw [h.2.1]; decide, h.2.2.2.2 [] rfl⟩
